import Mathlib

/-!
# Shallow embedding of the weather application (js sources)

This file embeds the pure content of the repository's JavaScript modules:

* the weather module (`src/unnamed/part_001`, second document): in-memory
  cache validity, current/forecast fetch with HTTP error mapping,
  temperature conversion, display formatting, daily forecast aggregation
  and threshold-based alert derivation;
* the search-history module (`src/unnamed/part_001`, first document):
  capped, deduplicated history list;
* the authentication module (`src/js/auth.js`): login against a stored
  user list.

JavaScript numbers occurring in weather payloads are modelled as rationals
(`ℚ`), `Math.round` as Mathlib's `round` (both round half toward +∞),
epoch-millisecond instants as naturals, and JavaScript objects used as
string-keyed dictionaries as association lists in first-insertion key
order (the keys involved are never integer-like strings, so JavaScript
preserves insertion order for them).
-/

namespace WeatherApp

/-- Worker for `firstUniq`: walk the list, keeping each element not seen
before (the JavaScript `if (!dict[key])` presence check). -/
def firstUniqAux {α : Type} [DecidableEq α] (seen : List α) : List α → List α
  | [] => []
  | k :: ks => if k ∈ seen then firstUniqAux seen ks else k :: firstUniqAux (k :: seen) ks

/-- First-occurrence deduplication: the distinct elements of `l` in the
order of their first occurrence.  This is the key order of a JavaScript
object built by inserting each element of `l` in turn. -/
def firstUniq {α : Type} [DecidableEq α] (l : List α) : List α := firstUniqAux [] l

/-- `Math.min(...xs)` over a non-empty argument list `x :: xs`. -/
def listMin (x : ℚ) (xs : List ℚ) : ℚ := xs.foldl min x

/-- `Math.max(...xs)` over a non-empty argument list `x :: xs`. -/
def listMax (x : ℚ) (xs : List ℚ) : ℚ := xs.foldl max x

/-! ## Weather module: configuration and cache -/

/-- `WEATHER_CONFIG.CACHE_DURATION = 10 * 60 * 1000` milliseconds. -/
def CACHE_DURATION : ℕ := 10 * 60 * 1000

/-- A cache entry `{ data, timestamp }` as stored in `weatherCache.current`
or `weatherCache.forecast`; `timestamp` is an epoch-millisecond instant. -/
structure CacheEntry (α : Type) where
  data : α
  timestamp : ℕ
  deriving Repr, DecidableEq

/-- One of the two maps of `weatherCache`, keyed by the city string exactly
as typed (JavaScript object property access is case-sensitive). -/
abbrev CacheMap (α : Type) : Type := List (String × CacheEntry α)

/-- `weatherCache.current[city]` / `weatherCache.forecast[city]`:
association-list lookup, `none` for a missing property. -/
def lookupCache {α : Type} (cache : CacheMap α) (city : String) : Option (CacheEntry α) :=
  (cache.find? (fun p => decide (p.1 = city))).map (fun p => p.2)

/-- `weatherCache.current[city] = entry`: property assignment keeps the
position of an existing key and appends a new key. -/
def setCache {α : Type} (cache : CacheMap α) (city : String) (entry : CacheEntry α) :
    CacheMap α :=
  if cache.any (fun p => decide (p.1 = city)) then
    cache.map (fun p => if p.1 = city then (city, entry) else p)
  else
    cache ++ [(city, entry)]

/-- `isCacheValid(cacheEntry)` evaluated at time `now`.
The source returns `false` when the entry is missing or its `timestamp`
is falsy (`0`), and otherwise tests `now - entry.timestamp < CACHE_DURATION`.
Natural subtraction agrees with the JavaScript comparison: both are
equivalent to `now < timestamp + CACHE_DURATION`. -/
def isCacheValid {α : Type} (cacheEntry : Option (CacheEntry α)) (now : ℕ) : Bool :=
  match cacheEntry with
  | none => false
  | some entry =>
    if entry.timestamp = 0 then false
    else decide (now - entry.timestamp < CACHE_DURATION)

/-! ## Weather module: fetch with HTTP error mapping

A fetch is modelled as a pure function of the cache state, the current
time and the HTTP response the network would return for the request; the
outcome records the result (`Except` of the thrown error message), the
cache after the call, and whether the network was consulted. -/

/-- The HTTP response the provider would return: `status` plus the parsed
JSON body for the success case (`response.ok ↔ 200 ≤ status < 300`). -/
structure HttpResponse (α : Type) where
  status : ℕ
  body : α
  deriving Repr, DecidableEq

/-- Outcome of a fetch call. -/
structure FetchOutcome (α : Type) where
  result : Except String α
  cache : CacheMap α
  networkUsed : Bool

/-- The network branch of `fetchCurrentWeather` (everything after the
cache check): error mapping for non-2xx statuses, caching on success. -/
def fetchCurrentNetwork {α : Type} (cache : CacheMap α) (city : String) (now : ℕ)
    (resp : HttpResponse α) : FetchOutcome α :=
  if 200 ≤ resp.status ∧ resp.status < 300 then
    { result := Except.ok resp.body
      cache := setCache cache city ⟨resp.body, now⟩
      networkUsed := true }
  else if resp.status = 404 then
    { result := Except.error "City not found. Please check the spelling and try again."
      cache := cache
      networkUsed := true }
  else if resp.status = 401 then
    { result := Except.error "API key error. Please contact support."
      cache := cache
      networkUsed := true }
  else
    { result := Except.error "Failed to fetch weather data. Please try again."
      cache := cache
      networkUsed := true }

/-- `fetchCurrentWeather(city)` acting on the `weatherCache.current` map. -/
def fetchCurrentWeather {α : Type} (cache : CacheMap α) (city : String) (now : ℕ)
    (resp : HttpResponse α) : FetchOutcome α :=
  match lookupCache cache city with
  | some entry =>
    if isCacheValid (some entry) now then
      { result := Except.ok entry.data, cache := cache, networkUsed := false }
    else fetchCurrentNetwork cache city now resp
  | none => fetchCurrentNetwork cache city now resp

/-- The network branch of `fetchForecastWeather`: unlike the current-weather
fetch it maps only status 404 specially; every other non-2xx status falls
into the generic forecast failure (there is no 401 branch in the source). -/
def fetchForecastNetwork {α : Type} (cache : CacheMap α) (city : String) (now : ℕ)
    (resp : HttpResponse α) : FetchOutcome α :=
  if 200 ≤ resp.status ∧ resp.status < 300 then
    { result := Except.ok resp.body
      cache := setCache cache city ⟨resp.body, now⟩
      networkUsed := true }
  else if resp.status = 404 then
    { result := Except.error "City not found for forecast data."
      cache := cache
      networkUsed := true }
  else
    { result := Except.error "Failed to fetch forecast data."
      cache := cache
      networkUsed := true }

/-- `fetchForecastWeather(city)` acting on the `weatherCache.forecast` map. -/
def fetchForecastWeather {α : Type} (cache : CacheMap α) (city : String) (now : ℕ)
    (resp : HttpResponse α) : FetchOutcome α :=
  match lookupCache cache city with
  | some entry =>
    if isCacheValid (some entry) now then
      { result := Except.ok entry.data, cache := cache, networkUsed := false }
    else fetchForecastNetwork cache city now resp
  | none => fetchForecastNetwork cache city now resp

/-! ## Weather module: unit conversion and display formatting -/

/-- `convertTemperature(celsius, unit)`. -/
def convertTemperature (celsius : ℚ) (unit : String) : ℚ :=
  if unit = "fahrenheit" then celsius * 9 / 5 + 32
  else celsius

/-- `getWeatherIconUrl(iconCode)`. -/
def getWeatherIconUrl (iconCode : String) : String :=
  "https://openweathermap.org/img/wn/" ++ iconCode ++ "@2x.png"

/-! ## Weather module: raw API payload and `formatWeatherData` -/

/-- The `main` object of a current-weather payload. -/
structure RawMain where
  temp : ℚ
  feels_like : ℚ
  temp_min : ℚ
  temp_max : ℚ
  humidity : ℚ
  pressure : ℚ
  deriving Repr, DecidableEq

/-- One element of the `weather` array of a payload. -/
structure RawCondition where
  main : String
  description : String
  icon : String
  deriving Repr, DecidableEq

/-- The `wind` object of a payload. -/
structure RawWind where
  speed : ℚ
  deg : ℚ
  deriving Repr, DecidableEq

/-- A current-weather payload as consumed by `formatWeatherData`.
`weather0` stands for `data.weather[0]`, `sys_country`, `sys_sunrise` and
`sys_sunset` for the fields of `data.sys`, and `clouds_all` for
`data.clouds.all`; `dt`, `sys_sunrise` and `sys_sunset` are epoch seconds. -/
structure RawData where
  name : String
  sys_country : String
  main : RawMain
  weather0 : RawCondition
  wind : RawWind
  clouds_all : ℚ
  visibility : ℚ
  sys_sunrise : ℕ
  sys_sunset : ℕ
  timezone : ℤ
  dt : ℕ
  deriving Repr, DecidableEq

/-- The object returned by `formatWeatherData`.  `sunrise`, `sunset` and
`timestamp` stand for the `Date` objects `new Date(x * 1000)` and are kept
as their epoch-millisecond values; the locale-formatted `Date` rendering is
outside the embedding. -/
structure FormattedWeather where
  city : String
  country : String
  temperature : ℤ
  feelsLike : ℤ
  tempMin : ℤ
  tempMax : ℤ
  description : String
  main : String
  icon : String
  iconUrl : String
  humidity : ℚ
  pressure : ℚ
  windSpeed : ℚ
  windDeg : ℚ
  clouds : ℚ
  visibility : ℤ
  sunrise : ℕ
  sunset : ℕ
  timezone : ℤ
  unitSymbol : String
  timestamp : ℕ
  deriving Repr, DecidableEq

/-- `formatWeatherData(data, unit)`. -/
def formatWeatherData (data : RawData) (unit : String) : FormattedWeather :=
  { city := data.name
    country := data.sys_country
    temperature := round (convertTemperature data.main.temp unit)
    feelsLike := round (convertTemperature data.main.feels_like unit)
    tempMin := round (convertTemperature data.main.temp_min unit)
    tempMax := round (convertTemperature data.main.temp_max unit)
    description := data.weather0.description
    main := data.weather0.main
    icon := data.weather0.icon
    iconUrl := getWeatherIconUrl data.weather0.icon
    humidity := data.main.humidity
    pressure := data.main.pressure
    windSpeed := data.wind.speed
    windDeg := data.wind.deg
    clouds := data.clouds_all
    visibility := round (data.visibility / 1000)
    sunrise := data.sys_sunrise * 1000
    sunset := data.sys_sunset * 1000
    timezone := data.timezone
    unitSymbol := if unit = "celsius" then "°C" else "°F"
    timestamp := data.dt * 1000 }

/-! ## Weather module: alert derivation (`generateWeatherAlerts`) -/

/-- A derived alert. -/
structure Alert where
  type : String
  severity : String
  title : String
  message : String
  icon : String
  deriving Repr, DecidableEq

/-- `generateWeatherAlerts(weatherData)`: the sequence of `alerts.push`
calls rendered as a concatenation of the conditional segments, in source
order: heat, cold, wind, rain, storm, visibility, humidity. -/
def generateWeatherAlerts (weatherData : FormattedWeather) : List Alert :=
  (if weatherData.temperature > 35 then
    [{ type := "heat", severity := "high", title := "Extreme Heat Warning"
       message := "Temperature is " ++ toString weatherData.temperature ++
         weatherData.unitSymbol ++ ". Stay hydrated and avoid prolonged sun exposure."
       icon := "🌡️" }]
  else if weatherData.temperature > 30 then
    [{ type := "heat", severity := "medium", title := "Heat Advisory"
       message := "Temperature is " ++ toString weatherData.temperature ++
         weatherData.unitSymbol ++ ". Take precautions in the heat."
       icon := "☀️" }]
  else []) ++
  (if weatherData.temperature < 10 then
    [{ type := "cold", severity := "medium", title := "Cold Weather Alert"
       message := "Temperature is " ++ toString weatherData.temperature ++
         weatherData.unitSymbol ++ ". Dress warmly."
       icon := "❄️" }]
  else []) ++
  (if weatherData.windSpeed > 15 then
    [{ type := "wind", severity := "high", title := "Strong Wind Warning"
       message := "Wind speed is " ++ toString weatherData.windSpeed ++
         " m/s. Secure loose objects and avoid outdoor activities."
       icon := "💨" }]
  else if weatherData.windSpeed > 10 then
    [{ type := "wind", severity := "medium", title := "Windy Conditions"
       message := "Wind speed is " ++ toString weatherData.windSpeed ++
         " m/s. Be cautious outdoors."
       icon := "🌬️" }]
  else []) ++
  (if weatherData.main = "Rain" ∨ weatherData.main = "Drizzle" then
    [{ type := "rain", severity := "medium", title := "Rain Alert"
       message := "Rain expected. Carry an umbrella and drive carefully."
       icon := "🌧️" }]
  else []) ++
  (if weatherData.main = "Thunderstorm" then
    [{ type := "storm", severity := "high", title := "Thunderstorm Warning"
       message := "Thunderstorm in the area. Stay indoors and avoid electrical equipment."
       icon := "⛈️" }]
  else []) ++
  (if weatherData.visibility < 2 then
    [{ type := "visibility", severity := "medium", title := "Poor Visibility"
       message := "Visibility is " ++ toString weatherData.visibility ++
         " km. Drive with caution."
       icon := "🌫️" }]
  else []) ++
  (if weatherData.humidity > 85 then
    [{ type := "humidity", severity := "low", title := "High Humidity"
       message := "Humidity is " ++ toString weatherData.humidity ++
         "%. It may feel uncomfortable."
       icon := "💧" }]
  else [])

/-! ## Weather module: forecast aggregation (`processDailyForecast`) -/

/-- One 3-hour record of the forecast payload (`forecastData.list[i]`);
`dt` is epoch seconds, the other fields are the ones the aggregation
reads (`main.temp`, `main.humidity`, `weather[0].main`, `weather[0].icon`,
`wind.speed`). -/
structure ForecastItem where
  dt : ℕ
  main_temp : ℚ
  main_humidity : ℚ
  weather_main : String
  weather_icon : String
  wind_speed : ℚ
  deriving Repr, DecidableEq

/-- A forecast payload. -/
structure ForecastData where
  list : List ForecastItem
  deriving Repr, DecidableEq

/-- The grouping key `new Date(item.dt * 1000).toISOString().split('T')[0]`:
the `YYYY-MM-DD` strings are in bijection with UTC day numbers, so the key
is kept as the epoch-day number `dt / 86400`. -/
def dayKeyOf (item : ForecastItem) : ℕ := item.dt / 86400

/-- The `dailyData` dictionary built by the grouping loop, as an
association list: keys in first-occurrence order (the `YYYY-MM-DD` keys
are not integer-like, so JavaScript preserves insertion order), each key
mapped to the day's records in input order. -/
def groupsOf (l : List ForecastItem) : List (ℕ × List ForecastItem) :=
  (firstUniq (l.map dayKeyOf)).map
    (fun k => (k, l.filter (fun it => decide (dayKeyOf it = k))))

/-- The `reduce` computing `dominantCondition`: raw occurrence counts over
the day's condition list, folded over the dictionary keys (first-occurrence
order) without an initial value.  `reduce` on an empty key list throws in
JavaScript; day groups are never empty, so the `[]` branch is unreachable
and returns a dummy value. -/
def dominantCondition (conditions : List String) : String :=
  match firstUniq conditions with
  | [] => ""
  | k :: ks =>
    ks.foldl (fun a b =>
      if conditions.count a > conditions.count b then a else b) k

/-- One entry of the output of `processDailyForecast`, built from a day's
group.  `date` stands for `new Date(day.date)` and is kept as the epoch-day
number; the locale `dateString` rendering is outside the embedding. -/
structure DailyForecast where
  date : ℕ
  minTemp : ℤ
  maxTemp : ℤ
  condition : String
  icon : String
  iconUrl : String
  avgHumidity : ℤ
  avgWind : ℚ
  unitSymbol : String
  deriving Repr, DecidableEq

/-- The aggregation body applied to one day group (the callback of the
`Object.values(dailyData).map`).  Day groups coming from `groupsOf` are
never empty; on the unreachable empty group the min/max/icon fall back to
dummy values (`Math.min()` of no arguments is `Infinity` in JavaScript). -/
def aggregateDay (key : ℕ) (items : List ForecastItem) (unit : String) : DailyForecast :=
  let temps := items.map (fun it => it.main_temp)
  let minTemp :=
    match temps with
    | [] => 0
    | x :: xs => listMin x xs
  let maxTemp :=
    match temps with
    | [] => 0
    | x :: xs => listMax x xs
  let icons := items.map (fun it => it.weather_icon)
  let humidityList := items.map (fun it => it.main_humidity)
  let windList := items.map (fun it => it.wind_speed)
  let middayIcon := icons.getD (icons.length / 2) ""
  { date := key
    minTemp := round (convertTemperature minTemp unit)
    maxTemp := round (convertTemperature maxTemp unit)
    condition := dominantCondition (items.map (fun it => it.weather_main))
    icon := middayIcon
    iconUrl := getWeatherIconUrl middayIcon
    avgHumidity := round (humidityList.sum / (humidityList.length : ℚ))
    avgWind := (round (windList.sum / (windList.length : ℚ) * 10) : ℚ) / 10
    unitSymbol := if unit = "celsius" then "°C" else "°F" }

/-- `processDailyForecast(forecastData, unit)`. -/
def processDailyForecast (forecastData : ForecastData) (unit : String) :
    List DailyForecast :=
  (((groupsOf forecastData.list).map
    (fun g => aggregateDay g.1 g.2 unit)).take 5)

/-! ## Search-history module -/

/-- `HISTORY_CONFIG.MAX_HISTORY_ITEMS`. -/
def MAX_HISTORY_ITEMS : ℕ := 20

/-- One stored history entry.  `timestamp` is the ISO string
`new Date().toISOString()`; the optional fields are `null` when
`addToHistory` was called without a weather snapshot. -/
structure HistoryEntry where
  city : String
  timestamp : String
  temperature : Option ℤ
  condition : Option String
  icon : Option String
  deriving Repr, DecidableEq

/-- The value persisted by `saveSearchHistory(history)`:
`history.slice(0, MAX_HISTORY_ITEMS)`. -/
def saveSearchHistory (history : List HistoryEntry) : List HistoryEntry :=
  history.take MAX_HISTORY_ITEMS

/-- The entry object built inside `addToHistory`. -/
def mkHistoryEntry (city : String) (ts : String) (weatherData : Option FormattedWeather) :
    HistoryEntry :=
  { city := city
    timestamp := ts
    temperature := weatherData.map (fun w => w.temperature)
    condition := weatherData.map (fun w => w.main)
    icon := weatherData.map (fun w => w.icon) }

/-- `addToHistory(city, weatherData)` acting on the stored history list;
`ts` is the ISO rendering of the call instant. -/
def addToHistory (history : List HistoryEntry) (city : String)
    (weatherData : Option FormattedWeather) (ts : String) : List HistoryEntry :=
  saveSearchHistory
    (mkHistoryEntry city ts weatherData ::
      history.filter (fun item => decide (item.city.toLower ≠ city.toLower)))

/-! ## Authentication module (`src/js/auth.js`) -/

/-- A stored user record (the fields `loginUser` reads). -/
structure User where
  id : String
  name : String
  email : String
  password : String
  isAdmin : Bool
  deriving Repr, DecidableEq

/-- The session object created on a successful login. -/
structure Session where
  userId : String
  name : String
  email : String
  loginTime : String
  deriving Repr, DecidableEq

/-- A `{ success, message }` result object. -/
structure AuthResult where
  success : Bool
  message : String
  deriving Repr, DecidableEq

/-- `isValidEmail(email)`: matchability of the test string against
`/^[^\s@]+@[^\s@]+\.[^\s@]+$/`.  A string matches iff it contains no
whitespace, exactly one `@` which is not the first character, and the part
after the `@` has a `.` that is neither its first nor its last character
(`[^\s@]` accepts `.`, so the local part and the domain segments may
themselves contain dots). -/
def isValidEmail (email : String) : Bool :=
  let cs := email.toList
  let localPart := cs.takeWhile (fun c => c ≠ '@')
  let domainPart := (cs.dropWhile (fun c => c ≠ '@')).drop 1
  cs.all (fun c => ¬ c.isWhitespace) &&
  cs.count '@' = 1 &&
  localPart ≠ [] &&
  domainPart ≠ [] &&
  ((domainPart.drop 1).dropLast.contains '.')

/-- `findUserByEmail(email)` over a given stored user list. -/
def findUserByEmail (users : List User) (email : String) : Option User :=
  users.find? (fun user => decide (user.email.toLower = email.toLower))

/-- `loginUser(email, password)` over a given stored user list; `now` is
the ISO rendering of the call instant.  Returns the result object and the
session written to storage (`none` when no session is created). -/
def loginUser (users : List User) (email password : String) (now : String) :
    AuthResult × Option Session :=
  if email = "" ∨ password = "" then
    ({ success := false, message := "Please enter both email and password" }, none)
  else if ¬ isValidEmail email then
    ({ success := false, message := "Please enter a valid email address" }, none)
  else
    match findUserByEmail users email with
    | none => ({ success := false, message := "Invalid email or password" }, none)
    | some user =>
      if user.password ≠ password then
        ({ success := false, message := "Invalid email or password" }, none)
      else
        ({ success := true, message := "Login successful!" },
          some { userId := user.id, name := user.name, email := user.email,
                 loginTime := now })

/-! ## Spec-side definitions (for refinement comparison) and sample data -/

/-- The maximal raw occurrence count over a condition list, taken over the
distinct conditions in iteration order. -/
def maxCondCount (conditions : List String) : ℕ :=
  ((firstUniq conditions).map (fun c => conditions.count c)).foldr max 0

/-- Written from the spec's words (amended for the observed tie direction):
the per-day condition of maximal raw occurrence count, ties broken in
favor of the last-encountered condition in iteration order (the key order
of the count dictionary, i.e. first-occurrence order). -/
def lastMaxCondition (conditions : List String) : Option String :=
  ((firstUniq conditions).filter
    (fun c => decide (conditions.count c = maxCondCount conditions))).getLast?

/-- A stored user list with one account. -/
def sampleUsers : List User :=
  [{ id := "1", name := "Alice", email := "alice@example.com",
     password := "secret123", isAdmin := false }]

/-- A raw snapshot whose Celsius temperature is 32°: between the 30° and
35° heat thresholds in Celsius, beyond 35 after conversion to Fahrenheit
(`round (32 * 9/5 + 32) = 90`). -/
def heatSample : RawData :=
  { name := "Sample", sys_country := "XX"
    main := { temp := 32, feels_like := 33, temp_min := 30, temp_max := 34,
              humidity := 50, pressure := 1005 }
    weather0 := { main := "Clear", description := "clear sky", icon := "01d" }
    wind := { speed := 5, deg := 90 }
    clouds_all := 0, visibility := 10000
    sys_sunrise := 0, sys_sunset := 0, timezone := 19800, dt := 0 }

/-- The formatted snapshot of §8 of the spec: temperature 20, wind speed
20, humidity 90, visibility 1, condition Thunderstorm. -/
def stormSnapshot : FormattedWeather :=
  { city := "Sample", country := "XX", temperature := 20, feelsLike := 20
    tempMin := 18, tempMax := 22, description := "thunderstorm with rain"
    main := "Thunderstorm", icon := "11d", iconUrl := getWeatherIconUrl "11d"
    humidity := 90, pressure := 1010, windSpeed := 20, windDeg := 180
    clouds := 75, visibility := 1, sunrise := 0, sunset := 0, timezone := 0
    unitSymbol := "°C", timestamp := 0 }

/-- A forecast record with the fields that matter for aggregation. -/
def mkSampleItem (dt : ℕ) (temp : ℚ) (cond : String) : ForecastItem :=
  { dt := dt, main_temp := temp, main_humidity := 50, weather_main := cond,
    weather_icon := "01d", wind_speed := 3 }

/-- Four records of one calendar day whose conditions tie 2–2 between
`"Clouds"` (encountered first) and `"Rain"` (encountered second). -/
def tieForecast : ForecastData :=
  { list := [mkSampleItem 0 1 "Clouds", mkSampleItem 10800 2 "Rain",
             mkSampleItem 21600 3 "Clouds", mkSampleItem 32400 4 "Rain"] }

/-- A 5-day, 3-hour-interval forecast input: 40 records starting at epoch
second 50000. -/
def fortyRecordForecast : ForecastData :=
  { list := (List.range 40).map (fun i => mkSampleItem (50000 + 10800 * i) (10 + i) "Clear") }

/-! # Helper lemmas -/

theorem mem_firstUniqAux {α : Type} [DecidableEq α] :
    ∀ (l seen : List α) (x : α), x ∈ firstUniqAux seen l ↔ x ∈ l ∧ x ∉ seen := by
  intro l
  induction l with
  | nil => intro seen x; simp [firstUniqAux]
  | cons k ks ih =>
    intro seen x
    rw [firstUniqAux]
    by_cases hk : k ∈ seen
    · rw [if_pos hk, ih]
      constructor
      · rintro ⟨h1, h2⟩
        exact ⟨List.mem_cons_of_mem _ h1, h2⟩
      · rintro ⟨h1, h2⟩
        rcases List.mem_cons.mp h1 with rfl | h1
        · exact absurd hk h2
        · exact ⟨h1, h2⟩
    · rw [if_neg hk, List.mem_cons, ih]
      constructor
      · rintro (rfl | ⟨h1, h2⟩)
        · exact ⟨List.mem_cons_self _ _, hk⟩
        · refine ⟨List.mem_cons_of_mem _ h1, fun hx => h2 (List.mem_cons_of_mem _ hx)⟩
      · rintro ⟨h1, h2⟩
        by_cases hxk : x = k
        · exact Or.inl hxk
        · rcases List.mem_cons.mp h1 with rfl | h1
          · exact absurd rfl hxk
          · refine Or.inr ⟨h1, fun hx => ?_⟩
            rcases List.mem_cons.mp hx with rfl | hx
            · exact hxk rfl
            · exact h2 hx

theorem nodup_firstUniqAux {α : Type} [DecidableEq α] :
    ∀ (l seen : List α), (firstUniqAux seen l).Nodup := by
  intro l
  induction l with
  | nil => intro seen; simp [firstUniqAux]
  | cons k ks ih =>
    intro seen
    rw [firstUniqAux]
    by_cases hk : k ∈ seen
    · rw [if_pos hk]; exact ih _
    · rw [if_neg hk]
      refine List.Nodup.cons ?_ (ih _)
      intro hkmem
      rw [mem_firstUniqAux] at hkmem
      exact hkmem.2 (List.mem_cons_self _ _)

theorem mem_firstUniq {α : Type} [DecidableEq α] (l : List α) (x : α) :
    x ∈ firstUniq l ↔ x ∈ l := by
  rw [firstUniq, mem_firstUniqAux]
  simp

theorem nodup_firstUniq {α : Type} [DecidableEq α] (l : List α) :
    (firstUniq l).Nodup := nodup_firstUniqAux l []

theorem foldl_min_le_init (xs : List ℚ) : ∀ a : ℚ, xs.foldl min a ≤ a := by
  induction xs with
  | nil => intro a; simp
  | cons x xs ih =>
    intro a
    calc (x :: xs).foldl min a = xs.foldl min (min a x) := rfl
    _ ≤ min a x := ih _
    _ ≤ a := min_le_left _ _

theorem init_le_foldl_max (xs : List ℚ) : ∀ a : ℚ, a ≤ xs.foldl max a := by
  induction xs with
  | nil => intro a; simp
  | cons x xs ih =>
    intro a
    calc a ≤ max a x := le_max_left _ _
    _ ≤ xs.foldl max (max a x) := ih _
    _ = (x :: xs).foldl max a := rfl

theorem listMin_le_listMax (x : ℚ) (xs : List ℚ) : listMin x xs ≤ listMax x xs :=
  le_trans (foldl_min_le_init xs x) (init_le_foldl_max xs x)

/-- `round` is monotone on `ℚ` (`Math.round` preserves `≤`). -/
theorem round_le_round_of_le {x y : ℚ} (h : x ≤ y) : round x ≤ round y := by
  rw [round_eq, round_eq]
  exact Int.floor_le_floor (by linarith)

theorem getLast?_eq_some_mem {α : Type} {l : List α} {x : α}
    (h : l.getLast? = some x) : x ∈ l := by
  rcases List.mem_getLast?_eq_getLast (Option.mem_def.mpr h) with ⟨hne, rfl⟩
  exact List.getLast_mem hne

theorem le_foldr_max (l : List ℕ) : ∀ x ∈ l, x ≤ l.foldr max 0 := by
  induction l with
  | nil => simp
  | cons a l ih =>
    intro x hx
    rcases List.mem_cons.mp hx with rfl | hx
    · simp only [List.foldr_cons]
      omega
    · have := ih x hx
      simp only [List.foldr_cons]
      omega

theorem foldl_pick (cnt : String → ℕ) :
    ∀ (l : List String) (a : String),
      ((a :: l).filter (fun c => decide (cnt c = ((a :: l).map cnt).foldr max 0))).getLast?
        = some (l.foldl (fun x y => if cnt x > cnt y then x else y) a) := by
  intro l
  induction l with
  | nil =>
    intro a
    simp [List.filter]
  | cons b l2 ih =>
    intro a
    have hfoldl : (b :: l2).foldl (fun x y => if cnt x > cnt y then x else y) a =
        l2.foldl (fun x y => if cnt x > cnt y then x else y)
          (if cnt a > cnt b then a else b) := rfl
    rw [hfoldl, ← ih (if cnt a > cnt b then a else b)]
    have hab : cnt (if cnt a > cnt b then a else b) = max (cnt a) (cnt b) := by
      by_cases h : cnt a > cnt b
      · rw [if_pos h]; omega
      · rw [if_neg h]; omega
    have hM1 : ((a :: b :: l2).map cnt).foldr max 0 =
        max (cnt (if cnt a > cnt b then a else b)) ((l2.map cnt).foldr max 0) := by
      simp only [List.map_cons, List.foldr_cons, hab]
      omega
    have hM2 : (((if cnt a > cnt b then a else b) :: l2).map cnt).foldr max 0 =
        max (cnt (if cnt a > cnt b then a else b)) ((l2.map cnt).foldr max 0) := by
      simp only [List.map_cons, List.foldr_cons]
    rw [hM1, hM2]
    set M := max (cnt (if cnt a > cnt b then a else b)) ((l2.map cnt).foldr max 0) with hMdef
    by_cases hgt : cnt a > cnt b
    · have hfa : (if cnt a > cnt b then a else b) = a := if_pos hgt
      rw [hfa]
      have hbM : ¬ (cnt b = M) := by
        rw [hMdef, hfa]
        omega
      simp only [List.filter_cons]
      rw [decide_eq_false hbM]
      simp only [Bool.false_eq_true, if_false]
    · have hfa : (if cnt a > cnt b then a else b) = b := if_neg hgt
      rw [hfa]
      by_cases haM : cnt a = M
      · have hbM : cnt b = M := by
          rw [hMdef, hfa] at haM ⊢
          omega
        simp only [List.filter_cons]
        rw [decide_eq_true haM, decide_eq_true hbM]
        simp only [if_true]
        exact List.getLast?_cons_cons ..
      · simp only [List.filter_cons]
        rw [decide_eq_false haM]
        simp only [Bool.false_eq_true, if_false]

theorem convertTemperature_mono {x y : ℚ} (unit : String) (h : x ≤ y) :
    convertTemperature x unit ≤ convertTemperature y unit := by
  rw [convertTemperature, convertTemperature]
  split
  · linarith
  · exact h

/-! # Claim theorems -/

/-- Claim C7: `convertTemperature` is the identity for target unit
`'celsius'` and `value * 9/5 + 32` for `'fahrenheit'`; in particular
`convertTemperature(0, 'fahrenheit') = 32` and
`convertTemperature(100, 'fahrenheit') = 212`. -/
theorem convertTemperature_spec :
    convertTemperature 0 "fahrenheit" = 32 ∧
    convertTemperature 100 "fahrenheit" = 212 ∧
    (∀ x : ℚ, convertTemperature x "celsius" = x) ∧
    (∀ x : ℚ, convertTemperature x "fahrenheit" = x * 9 / 5 + 32) := by
  have hc : ∀ x : ℚ, convertTemperature x "celsius" = x := by
    intro x
    rw [convertTemperature, if_neg (by decide)]
  have hf : ∀ x : ℚ, convertTemperature x "fahrenheit" = x * 9 / 5 + 32 := by
    intro x
    rw [convertTemperature, if_pos rfl]
  refine ⟨?_, ?_, hc, hf⟩
  · rw [hf]; norm_num
  · rw [hf]; norm_num

/-- Claim C9: the stored history is always the at-most-20-entry prefix of
the list handed to `saveSearchHistory` (excess dropped from the tail), and
every `addToHistory` result obeys the cap. -/
theorem searchHistory_capped :
    (∀ history : List HistoryEntry,
      (saveSearchHistory history).length ≤ MAX_HISTORY_ITEMS ∧
      saveSearchHistory history = history.take 20) ∧
    (∀ (history : List HistoryEntry) (city : String)
      (weatherData : Option FormattedWeather) (ts : String),
      (addToHistory history city weatherData ts).length ≤ MAX_HISTORY_ITEMS) := by
  constructor
  · intro history
    exact ⟨List.length_take_le _ _, rfl⟩
  · intro history city weatherData ts
    exact List.length_take_le _ _

/-- Claim C8: adding the same city twice leaves exactly one entry for it
(matched case-insensitively), at the front of the list, carrying the
second (most recent) timestamp. -/
theorem addToHistory_dedup (history : List HistoryEntry) (city ts₁ ts₂ : String)
    (wd₁ wd₂ : Option FormattedWeather) :
    (addToHistory (addToHistory history city wd₁ ts₁) city wd₂ ts₂).head? =
      some (mkHistoryEntry city ts₂ wd₂) ∧
    (addToHistory (addToHistory history city wd₁ ts₁) city wd₂ ts₂).countP
      (fun item => decide (item.city.toLower = city.toLower)) = 1 := by
  have htake : ∀ (e : HistoryEntry) (l : List HistoryEntry),
      (e :: l).take MAX_HISTORY_ITEMS = e :: l.take 19 := by
    intro e l
    rfl
  constructor
  · rw [addToHistory, saveSearchHistory, htake]
    rfl
  · rw [addToHistory, saveSearchHistory, htake, List.countP_cons]
    have hpe : decide ((mkHistoryEntry city ts₂ wd₂).city.toLower = city.toLower) = true := by
      simp [mkHistoryEntry]
    rw [hpe]
    have hzero : (((addToHistory history city wd₁ ts₁).filter
        (fun item => decide (item.city.toLower ≠ city.toLower))).take 19).countP
        (fun item => decide (item.city.toLower = city.toLower)) = 0 := by
      refine List.countP_eq_zero.mpr ?_
      intro a ha
      have ha' : a ∈ (addToHistory history city wd₁ ts₁).filter
          (fun item => decide (item.city.toLower ≠ city.toLower)) :=
        (List.take_sublist _ _).subset ha
      rcases List.mem_filter.mp ha' with ⟨-, hne⟩
      simp only [decide_eq_true_eq] at hne
      simp [hne]
    rw [hzero]
    simp

/-- Claim C10: with a well-formed login input (both fields non-empty and
the email passing format validation), `loginUser` returns the identical
failure `Invalid email or password` both when no stored user matches the
email and when the matching user's stored password differs. -/
theorem loginUser_uniform_failure (users : List User) (email password now : String)
    (hemail : email ≠ "") (hpass : password ≠ "") (hvalid : isValidEmail email = true) :
    (findUserByEmail users email = none →
      loginUser users email password now =
        ({ success := false, message := "Invalid email or password" }, none)) ∧
    (∀ u : User, findUserByEmail users email = some u → u.password ≠ password →
      loginUser users email password now =
        ({ success := false, message := "Invalid email or password" }, none)) := by
  have hne : ¬ (email = "" ∨ password = "") := by tauto
  constructor
  · intro hfind
    rw [loginUser, if_neg hne, if_neg (by simp [hvalid]), hfind]
  · intro u hfind hpw
    rw [loginUser, if_neg hne, if_neg (by simp [hvalid]), hfind]
    simp [hpw]

/-- Witness for C10: on the sample store, an unknown email and a known
email with a wrong password both yield `Invalid email or password`. -/
theorem loginUser_uniform_failure_w :
    (findUserByEmail sampleUsers "bob@example.com" = none →
      loginUser sampleUsers "bob@example.com" "secret123" "t" =
        ({ success := false, message := "Invalid email or password" }, none)) ∧
    (∀ u : User, findUserByEmail sampleUsers "bob@example.com" = some u →
      u.password ≠ "secret123" →
      loginUser sampleUsers "bob@example.com" "secret123" "t" =
        ({ success := false, message := "Invalid email or password" }, none)) :=
  loginUser_uniform_failure sampleUsers "bob@example.com" "secret123" "t"
    (by decide) (by decide) (by decide)

/-- Claim C5: the alert types always come out in the fixed evaluation
order heat, cold, wind, rain, storm, visibility, humidity (as a sublist of
that sequence), and on the snapshot with temperature 20, windSpeed 20,
humidity 90, visibility 1 and condition Thunderstorm the output is exactly
wind/high, storm/high, visibility/medium, humidity/low in that order. -/
theorem generateWeatherAlerts_order :
    (∀ w : FormattedWeather,
      List.Sublist ((generateWeatherAlerts w).map (fun a => a.type))
        ["heat", "cold", "wind", "rain", "storm", "visibility", "humidity"]) ∧
    (generateWeatherAlerts stormSnapshot).map (fun a => (a.type, a.severity)) =
      [("wind", "high"), ("storm", "high"), ("visibility", "medium"),
       ("humidity", "low")] := by
  constructor
  · intro w
    rw [generateWeatherAlerts]
    simp only [List.map_append]
    show List.Sublist _
      (["heat"] ++ ["cold"] ++ ["wind"] ++ ["rain"] ++ ["storm"] ++
        ["visibility"] ++ ["humidity"])
    refine List.Sublist.append (List.Sublist.append (List.Sublist.append
      (List.Sublist.append (List.Sublist.append (List.Sublist.append ?_ ?_) ?_) ?_)
        ?_) ?_) ?_
    all_goals split_ifs <;> simp
  · decide

/-- Claim C4: alert thresholds read the already-converted display
temperature, so the fixed physical snapshot `heatSample` (32 °C) yields a
medium heat alert under Celsius display but a high heat alert under
Fahrenheit display — the derived alerts differ with the selected unit. -/
theorem alerts_depend_on_unit :
    ((generateWeatherAlerts (formatWeatherData heatSample "celsius")).map
      (fun a => (a.type, a.severity)) = [("heat", "medium")]) ∧
    ((generateWeatherAlerts (formatWeatherData heatSample "fahrenheit")).map
      (fun a => (a.type, a.severity)) = [("heat", "high")]) ∧
    generateWeatherAlerts (formatWeatherData heatSample "celsius") ≠
      generateWeatherAlerts (formatWeatherData heatSample "fahrenheit") := by
  have hcC : ∀ x : ℚ, convertTemperature x "celsius" = x := fun x => by
    rw [convertTemperature, if_neg (by decide)]
  have hcF : ∀ x : ℚ, convertTemperature x "fahrenheit" = x * 9 / 5 + 32 := fun x => by
    rw [convertTemperature, if_pos rfl]
  have hfc : formatWeatherData heatSample "celsius" =
      { city := "Sample", country := "XX", temperature := 32, feelsLike := 33,
        tempMin := 30, tempMax := 34, description := "clear sky", main := "Clear",
        icon := "01d", iconUrl := getWeatherIconUrl "01d", humidity := 50,
        pressure := 1005, windSpeed := 5, windDeg := 90, clouds := 0,
        visibility := 10, sunrise := 0, sunset := 0, timezone := 19800,
        unitSymbol := "°C", timestamp := 0 } := by
    rw [formatWeatherData]
    simp only [heatSample, hcC]
    norm_num [round_eq, Int.floor_eq_iff, FormattedWeather.mk.injEq]
  have hff : formatWeatherData heatSample "fahrenheit" =
      { city := "Sample", country := "XX", temperature := 90, feelsLike := 91,
        tempMin := 86, tempMax := 93, description := "clear sky", main := "Clear",
        icon := "01d", iconUrl := getWeatherIconUrl "01d", humidity := 50,
        pressure := 1005, windSpeed := 5, windDeg := 90, clouds := 0,
        visibility := 10, sunrise := 0, sunset := 0, timezone := 19800,
        unitSymbol := "°F", timestamp := 0 } := by
    rw [formatWeatherData]
    simp only [heatSample, hcF]
    norm_num [round_eq, Int.floor_eq_iff, FormattedWeather.mk.injEq]
    intro h
    exact absurd h (by decide)
  have h1 : (generateWeatherAlerts (formatWeatherData heatSample "celsius")).map
      (fun a => (a.type, a.severity)) = [("heat", "medium")] := by
    rw [hfc]; decide
  have h2 : (generateWeatherAlerts (formatWeatherData heatSample "fahrenheit")).map
      (fun a => (a.type, a.severity)) = [("heat", "high")] := by
    rw [hff]; decide
  refine ⟨h1, h2, fun h => ?_⟩
  rw [h] at h1
  rw [h2] at h1
  exact absurd h1 (by decide)

/-- Amended claim C1: a fresh cache entry (age strictly below 10 minutes)
whose fetched timestamp is nonzero is returned as-is by both fetches, with
no network request and the cache left unchanged.  (The source treats a
zero — falsy — timestamp as an invalid entry, so the claim as stated
fails there; see the counterexample.) -/
theorem fetch_cached_when_fresh {α β : Type} (ccache : CacheMap α) (fcache : CacheMap β)
    (city : String) (now : ℕ) (resp₁ : HttpResponse α) (resp₂ : HttpResponse β)
    (e : CacheEntry α) (f : CacheEntry β)
    (hce : lookupCache ccache city = some e) (he0 : e.timestamp ≠ 0)
    (hefresh : now - e.timestamp < CACHE_DURATION)
    (hfe : lookupCache fcache city = some f) (hf0 : f.timestamp ≠ 0)
    (hffresh : now - f.timestamp < CACHE_DURATION) :
    fetchCurrentWeather ccache city now resp₁ =
      { result := Except.ok e.data, cache := ccache, networkUsed := false } ∧
    fetchForecastWeather fcache city now resp₂ =
      { result := Except.ok f.data, cache := fcache, networkUsed := false } := by
  have hev : isCacheValid (some e) now = true := by
    rw [isCacheValid, if_neg he0]
    exact decide_eq_true hefresh
  have hfv : isCacheValid (some f) now = true := by
    rw [isCacheValid, if_neg hf0]
    exact decide_eq_true hffresh
  constructor
  · rw [fetchCurrentWeather, hce]
    simp [hev]
  · rw [fetchForecastWeather, hfe]
    simp [hfv]

/-- Witness for the amended C1: a concrete fresh entry (timestamp 5,
now 6) is served from both caches without a network call. -/
theorem fetch_cached_when_fresh_w :
    fetchCurrentWeather [("Paris", (⟨7, 5⟩ : CacheEntry ℕ))] "Paris" 6 ⟨200, 9⟩ =
      { result := Except.ok 7, cache := [("Paris", ⟨7, 5⟩)], networkUsed := false } ∧
    fetchForecastWeather [("Paris", (⟨8, 5⟩ : CacheEntry ℕ))] "Paris" 6 ⟨200, 10⟩ =
      { result := Except.ok 8, cache := [("Paris", ⟨8, 5⟩)], networkUsed := false } :=
  fetch_cached_when_fresh [("Paris", ⟨7, 5⟩)] [("Paris", ⟨8, 5⟩)] "Paris" 6
    ⟨200, 9⟩ ⟨200, 10⟩ ⟨7, 5⟩ ⟨8, 5⟩ rfl (by decide) (by decide) rfl (by decide) (by decide)

/-- Counterexample to C1 as stated: a cache entry fetched at epoch
instant 0 has age 1000 ms < 10 min at `now = 1000`, yet the fetch consults
the network and returns the fresh body instead of the cached snapshot. -/
theorem fetch_fresh_entry_counterexample :
    ((1000 : ℕ) - 0 < CACHE_DURATION) ∧
    (fetchCurrentWeather [("Paris", (⟨7, 0⟩ : CacheEntry ℕ))] "Paris" 1000
      ⟨200, 9⟩).networkUsed = true ∧
    (fetchCurrentWeather [("Paris", (⟨7, 0⟩ : CacheEntry ℕ))] "Paris" 1000
      ⟨200, 9⟩).result = Except.ok 9 := by
  refine ⟨by norm_num [CACHE_DURATION], rfl, rfl⟩

/-- Amended claim C2: for `getCurrentWeather`, a non-2xx response maps
404 to the city-not-found error, 401 to the credential error, and any
other status to the generic failure; for `getForecast`, 404 maps to its
city-not-found error and every other non-2xx status — including 401 —
falls into the generic forecast failure (the source has no 401 branch
there). -/
theorem fetch_http_error_mapping {α β : Type} (city : String) (now : ℕ)
    (resp₁ : HttpResponse α) (resp₂ : HttpResponse β)
    (h₁ : ¬ (200 ≤ resp₁.status ∧ resp₁.status < 300))
    (h₂ : ¬ (200 ≤ resp₂.status ∧ resp₂.status < 300)) :
    ((resp₁.status = 404 →
        (fetchCurrentWeather ([] : CacheMap α) city now resp₁).result =
          Except.error "City not found. Please check the spelling and try again.") ∧
     (resp₁.status = 401 →
        (fetchCurrentWeather ([] : CacheMap α) city now resp₁).result =
          Except.error "API key error. Please contact support.") ∧
     (resp₁.status ≠ 404 → resp₁.status ≠ 401 →
        (fetchCurrentWeather ([] : CacheMap α) city now resp₁).result =
          Except.error "Failed to fetch weather data. Please try again.")) ∧
    ((resp₂.status = 404 →
        (fetchForecastWeather ([] : CacheMap β) city now resp₂).result =
          Except.error "City not found for forecast data.") ∧
     (resp₂.status ≠ 404 →
        (fetchForecastWeather ([] : CacheMap β) city now resp₂).result =
          Except.error "Failed to fetch forecast data.")) := by
  have hcur : fetchCurrentWeather ([] : CacheMap α) city now resp₁ =
      fetchCurrentNetwork [] city now resp₁ := rfl
  have hfc : fetchForecastWeather ([] : CacheMap β) city now resp₂ =
      fetchForecastNetwork [] city now resp₂ := rfl
  refine ⟨⟨?_, ?_, ?_⟩, ?_, ?_⟩
  · intro h404
    rw [hcur, fetchCurrentNetwork, if_neg h₁, if_pos h404]
  · intro h401
    rw [hcur, fetchCurrentNetwork, if_neg h₁, if_neg (by omega), if_pos h401]
  · intro h404 h401
    rw [hcur, fetchCurrentNetwork, if_neg h₁, if_neg h404, if_neg h401]
  · intro h404
    rw [hfc, fetchForecastNetwork, if_neg h₂, if_pos h404]
  · intro h404
    rw [hfc, fetchForecastNetwork, if_neg h₂, if_neg h404]

/-- Witness for the amended C2: a 404 current-weather response and a 401
forecast response produce the mapped errors. -/
theorem fetch_http_error_mapping_w :
    (((404 : ℕ) = 404 →
        (fetchCurrentWeather ([] : CacheMap ℕ) "Paris" 0 ⟨404, 0⟩).result =
          Except.error "City not found. Please check the spelling and try again.") ∧
     ((404 : ℕ) = 401 →
        (fetchCurrentWeather ([] : CacheMap ℕ) "Paris" 0 ⟨404, 0⟩).result =
          Except.error "API key error. Please contact support.") ∧
     ((404 : ℕ) ≠ 404 → (404 : ℕ) ≠ 401 →
        (fetchCurrentWeather ([] : CacheMap ℕ) "Paris" 0 ⟨404, 0⟩).result =
          Except.error "Failed to fetch weather data. Please try again.")) ∧
    (((401 : ℕ) = 404 →
        (fetchForecastWeather ([] : CacheMap ℕ) "Paris" 0 ⟨401, 0⟩).result =
          Except.error "City not found for forecast data.") ∧
     ((401 : ℕ) ≠ 404 →
        (fetchForecastWeather ([] : CacheMap ℕ) "Paris" 0 ⟨401, 0⟩).result =
          Except.error "Failed to fetch forecast data.")) :=
  fetch_http_error_mapping "Paris" 0 ⟨404, 0⟩ ⟨401, 0⟩ (by decide) (by decide)

/-- Counterexample to C2 as stated: a 401 response to the forecast fetch
yields the generic forecast failure, which is not the credential error the
claim names for status 401. -/
theorem forecast_401_counterexample :
    (fetchForecastWeather ([] : CacheMap ℕ) "Paris" 0 ⟨401, 0⟩).result =
      Except.error "Failed to fetch forecast data." ∧
    ("Failed to fetch forecast data." : String) ≠
      "API key error. Please contact support." :=
  ⟨rfl, by decide⟩

/-- Counterexample to C3 as stated: in `tieForecast` the conditions
`"Clouds"` and `"Rain"` tie 2–2 and `"Clouds"` is encountered first in
iteration order, yet the aggregated daily condition is `"Rain"`. -/
theorem processDailyForecast_tie_counterexample :
    (processDailyForecast tieForecast "celsius").map (fun d => d.condition) = ["Rain"] ∧
    (tieForecast.list.map (fun it => it.weather_main)).count "Clouds" = 2 ∧
    (tieForecast.list.map (fun it => it.weather_main)).count "Rain" = 2 ∧
    firstUniq (tieForecast.list.map (fun it => it.weather_main)) = ["Clouds", "Rain"] := by
  refine ⟨?_, by decide, by decide, by decide⟩
  rfl

/-- Amended claim C3: the per-day condition is chosen by raw occurrence
count, and when several conditions tie for the maximal count the winner is
the last-encountered of them in iteration order (`lastMaxCondition`); every
entry of `processDailyForecast` carries the condition selected this way
from its day group. -/
theorem dominantCondition_majority (conditions : List String) (h : conditions ≠ []) :
    lastMaxCondition conditions = some (dominantCondition conditions) ∧
    (∀ c ∈ conditions,
      conditions.count c ≤ conditions.count (dominantCondition conditions)) ∧
    (∀ (fd : ForecastData) (unit : String) (d : DailyForecast),
      d ∈ processDailyForecast fd unit →
      ∃ g ∈ groupsOf fd.list,
        d.condition = dominantCondition (g.2.map (fun it => it.weather_main))) := by
  obtain ⟨a, l, hfu⟩ : ∃ a l, firstUniq conditions = a :: l := by
    cases hfu : firstUniq conditions with
    | nil =>
      exfalso
      cases hc : conditions with
      | nil => exact h hc
      | cons x xs =>
        have hx : x ∈ firstUniq conditions :=
          (mem_firstUniq conditions x).mpr (by rw [hc]; exact List.mem_cons_self _ _)
        rw [hfu] at hx
        exact List.not_mem_nil _ hx
    | cons a l => exact ⟨a, l, rfl⟩
  have hdom : dominantCondition conditions =
      l.foldl (fun x y => if conditions.count x > conditions.count y then x else y) a := by
    simp only [dominantCondition, hfu]
  have hpick := foldl_pick (fun c => conditions.count c) l a
  have hdmax : conditions.count (dominantCondition conditions) =
      (((a :: l).map (fun c => conditions.count c)).foldr max 0) := by
    have hmem := getLast?_eq_some_mem hpick
    rcases List.mem_filter.mp hmem with ⟨-, hcnt⟩
    rw [hdom]
    exact of_decide_eq_true hcnt
  refine ⟨?_, ?_, ?_⟩
  · rw [lastMaxCondition, maxCondCount, hfu, hdom]
    exact hpick
  · intro c hc
    have hcm : c ∈ firstUniq conditions := (mem_firstUniq _ _).mpr hc
    rw [hfu] at hcm
    have hmax := le_foldr_max ((a :: l).map (fun c => conditions.count c))
      (conditions.count c) (List.mem_map_of_mem _ hcm)
    rw [hdmax]
    exact hmax
  · intro fd unit d hd
    have hd' : d ∈ (groupsOf fd.list).map (fun g => aggregateDay g.1 g.2 unit) := by
      rw [processDailyForecast] at hd
      exact (List.take_sublist _ _).subset hd
    rcases List.mem_map.mp hd' with ⟨g, hg, rfl⟩
    exact ⟨g, hg, rfl⟩

/-- Witness for the amended C3, on the tied condition list. -/
theorem dominantCondition_majority_w :
    lastMaxCondition ["Clouds", "Rain", "Clouds", "Rain"] =
      some (dominantCondition ["Clouds", "Rain", "Clouds", "Rain"]) ∧
    (∀ c ∈ (["Clouds", "Rain", "Clouds", "Rain"] : List String),
      (["Clouds", "Rain", "Clouds", "Rain"] : List String).count c ≤
        (["Clouds", "Rain", "Clouds", "Rain"] : List String).count
          (dominantCondition ["Clouds", "Rain", "Clouds", "Rain"])) ∧
    (∀ (fd : ForecastData) (unit : String) (d : DailyForecast),
      d ∈ processDailyForecast fd unit →
      ∃ g ∈ groupsOf fd.list,
        d.condition = dominantCondition (g.2.map (fun it => it.weather_main))) :=
  dominantCondition_majority ["Clouds", "Rain", "Clouds", "Rain"] (by decide)

/-- Among 40 consecutive 3-hour instants, each of the first five UTC day
numbers from the start is hit. -/
theorem exists_day_index (t j : ℕ) (hj : j < 5) :
    ∃ i, i < 40 ∧ (t + 10800 * i) / 86400 = t / 86400 + j := by
  rcases Nat.eq_zero_or_pos j with rfl | hjpos
  · exact ⟨0, by omega, by omega⟩
  · refine ⟨(86400 * j + 10799 - t % 86400) / 10800, ?_, ?_⟩ <;> omega

/-- A non-empty day group aggregates to `minTemp ≤ maxTemp`. -/
theorem aggregateDay_min_le_max (k : ℕ) (items : List ForecastItem) (u : String)
    (h : items ≠ []) :
    (aggregateDay k items u).minTemp ≤ (aggregateDay k items u).maxTemp := by
  cases items with
  | nil => exact absurd rfl h
  | cons x xs =>
    have hmin : (aggregateDay k (x :: xs) u).minTemp =
        round (convertTemperature (listMin x.main_temp (xs.map (fun it => it.main_temp))) u) := rfl
    have hmax : (aggregateDay k (x :: xs) u).maxTemp =
        round (convertTemperature (listMax x.main_temp (xs.map (fun it => it.main_temp))) u) := rfl
    rw [hmin, hmax]
    exact round_le_round_of_le (convertTemperature_mono u (listMin_le_listMax _ _))

/-- Claim C6: a 40-record forecast at 3-hour intervals aggregates to
exactly 5 daily entries, each with `minTemp ≤ maxTemp`; and on every input
whatsoever the per-day list is truncated to at most 5 entries. -/
theorem processDailyForecast_five_days (fd : ForecastData) (t : ℕ) (unit : String)
    (hdts : fd.list.map (fun it => it.dt) = (List.range 40).map (fun i => t + 10800 * i)) :
    (processDailyForecast fd unit).length = 5 ∧
    (∀ d ∈ processDailyForecast fd unit, d.minTemp ≤ d.maxTemp) ∧
    (∀ (fd' : ForecastData) (u : String), (processDailyForecast fd' u).length ≤ 5) := by
  have hkeys : fd.list.map dayKeyOf =
      (List.range 40).map (fun i => (t + 10800 * i) / 86400) := by
    have h2 := congrArg (List.map (fun x => x / 86400)) hdts
    rw [List.map_map, List.map_map] at h2
    exact h2
  have hmemkey : ∀ j, j < 5 → (t / 86400 + j) ∈ fd.list.map dayKeyOf := by
    intro j hj
    rw [hkeys]
    rcases exists_day_index t j hj with ⟨i, hi40, hi⟩
    exact List.mem_map.mpr ⟨i, List.mem_range.mpr hi40, hi⟩
  have h5 : 5 ≤ (firstUniq (fd.list.map dayKeyOf)).length := by
    have hsub : [t / 86400, t / 86400 + 1, t / 86400 + 2, t / 86400 + 3, t / 86400 + 4] ⊆
        firstUniq (fd.list.map dayKeyOf) := by
      intro x hx
      rw [mem_firstUniq]
      simp only [List.mem_cons, List.not_mem_nil, or_false] at hx
      rcases hx with rfl | rfl | rfl | rfl | rfl
      · simpa using hmemkey 0 (by omega)
      · exact hmemkey 1 (by omega)
      · exact hmemkey 2 (by omega)
      · exact hmemkey 3 (by omega)
      · exact hmemkey 4 (by omega)
    have hnodup : ([t / 86400, t / 86400 + 1, t / 86400 + 2, t / 86400 + 3,
        t / 86400 + 4] : List ℕ).Nodup := by
      simp [List.nodup_cons]
    have := (List.subperm_of_subset hnodup hsub).length_le
    simpa using this
  have hlen1 : (processDailyForecast fd unit).length =
      min 5 (firstUniq (fd.list.map dayKeyOf)).length := by
    simp [processDailyForecast, groupsOf]
  refine ⟨by omega, ?_, ?_⟩
  · intro d hd
    rw [processDailyForecast] at hd
    have hd' : d ∈ (groupsOf fd.list).map (fun g => aggregateDay g.1 g.2 unit) :=
      (List.take_sublist _ _).subset hd
    rcases List.mem_map.mp hd' with ⟨g, hg, rfl⟩
    rw [groupsOf] at hg
    rcases List.mem_map.mp hg with ⟨k, hk, rfl⟩
    have hkmem : k ∈ fd.list.map dayKeyOf := (mem_firstUniq _ _).mp hk
    rcases List.mem_map.mp hkmem with ⟨it, hit, hitk⟩
    have hitems : it ∈ fd.list.filter (fun it => decide (dayKeyOf it = k)) :=
      List.mem_filter.mpr ⟨hit, decide_eq_true hitk⟩
    exact aggregateDay_min_le_max k _ unit (List.ne_nil_of_mem hitems)
  · intro fd' u
    have : (processDailyForecast fd' u).length =
        min 5 (firstUniq (fd'.list.map dayKeyOf)).length := by
      simp [processDailyForecast, groupsOf]
    omega

/-- Witness for C6 on the concrete 40-record input. -/
theorem processDailyForecast_five_days_w :
    (processDailyForecast fortyRecordForecast "celsius").length = 5 ∧
    (∀ d ∈ processDailyForecast fortyRecordForecast "celsius", d.minTemp ≤ d.maxTemp) ∧
    (∀ (fd' : ForecastData) (u : String), (processDailyForecast fd' u).length ≤ 5) :=
  processDailyForecast_five_days fortyRecordForecast 50000 "celsius" (by decide)

end WeatherApp
